import Mathlib

/-!
Shallow embedding of the Unmanic `postprocessor_script` plugin (`plugin.py`).

The plugin runs a user-configured shell command after a transcode task
finishes.  The embedding models the pure/observable core of the module:

* `replaceList` / `pyReplace` — Python `str.replace` (leftmost,
  non-overlapping occurrences of a pattern, each replaced by a fixed string).
* `exec_subprocess` — the subprocess executor (`plugin.py`, lines 152-181).
  The spawned process is abstracted by an exit-code oracle
  `run : String → Int`; the observable outputs are the list of spawned
  full-command strings and the returned value / raised error message.
* `on_postprocessor_task_results` — the orchestrator
  (`plugin.py`, lines 317-392): the success gate, command resolution,
  argument normalization, variable-map construction, and the per-file /
  batch fan-out.  Filesystem and provisioning effects that are external to
  this module (`build_script` and everything it calls) are abstracted as an
  environment `Env`; the side effects of one invocation are collected in a
  `Trace` (executor calls, spawned processes, scratch-file writes).
-/

namespace PostprocessorScript

/-- Characters stripped by Python `str.strip()` (the ASCII whitespace set;
the plugin only uses the strip result as a truthiness test). -/
def isPySpace (c : Char) : Bool :=
  c = ' ' || c = '\t' || c = '\n' || c = '\r' || c = Char.ofNat 11 || c = Char.ofNat 12

/-- Fuel-indexed worker for Python `str.replace`: scan left to right; when
the (non-empty) pattern is a prefix of the remaining input, emit the
replacement and skip the matched characters, otherwise keep one character
and continue.  The fuel argument only makes the recursion structural; it is
always instantiated with the length of the input. -/
def replaceListFuel (pat rep : List Char) : Nat → List Char → List Char
  | _, [] => []
  | 0, c :: s => c :: s
  | fuel + 1, c :: s =>
    if !pat.isEmpty && pat.isPrefixOf (c :: s) then
      rep ++ replaceListFuel pat rep fuel ((c :: s).drop pat.length)
    else
      c :: replaceListFuel pat rep fuel s

/-- Python `str.replace` on character lists (the plugin never calls
`replace` with an empty pattern, so the empty-pattern case is irrelevant
here; this embedding leaves the input unchanged for it). -/
def replaceList (pat rep l : List Char) : List Char :=
  replaceListFuel pat rep l.length l

/-- Python `s.replace(pat, rep)`. -/
def pyReplace (s pat rep : String) : String :=
  String.mk (replaceList pat.data rep.data s.data)

/-- Python `str(x)` for an `int`-or-`None` value: `str(None)` is the text
`None`, `str(n)` is the decimal numeral. -/
def pyStrOptNat : Option Nat → String
  | none => "None"
  | some n => toString n

/-- Single-quote character, written via its code point. -/
def squote : String := String.singleton (Char.ofNat 39)

/-- Embedding of `exec_subprocess(cmd, args)` (`plugin.py`, lines 152-181).
`run` is the oracle giving the exit code of a spawned shell command.  The
first component lists the full-command strings actually spawned; the second
is the observable result: `Except.ok (some true)` on exit code 0,
`Except.ok none` when the composed command is blank (the Python function
falls through and implicitly returns `None` without spawning anything), and
`Except.error msg` for the exception raised on a non-zero exit code.  The
`cwd` parameter and the stdout-streaming loop of the source do not affect
these observables and are not modelled. -/
def exec_subprocess (run : String → Int) (cmd args : String) :
    List String × Except String (Option Bool) :=
  let full_command := cmd ++ " " ++ args
  if full_command.data.any fun c => !(isPySpace c) then
    if run full_command = 0 then
      ([full_command], Except.ok (some true))
    else
      ([full_command],
        Except.error ("Failed to execute command: " ++ squote ++ full_command ++ squote))
  else
    ([], Except.ok none)

/-- Lowercase hexadecimal digit, as produced by Python `json.dumps`. -/
def hexDigit (n : Nat) : Char :=
  if n < 10 then Char.ofNat (48 + n) else Char.ofNat (87 + n)

/-- Four lowercase hexadecimal digits. -/
def hex4 (n : Nat) : String :=
  String.mk [hexDigit (n / 4096 % 16), hexDigit (n / 256 % 16),
             hexDigit (n / 16 % 16), hexDigit (n % 16)]

/-- Escaping of one character inside a JSON string literal, following
Python `json.dumps` with its default `ensure_ascii=True`: backslash, double
quote and the short control escapes get two-character forms, other
characters outside the printable ASCII range 0x20-0x7e become `\uXXXX`
(with a surrogate pair above 0xffff). -/
def jsonEscapeChar (c : Char) : String :=
  if c = '\\' then "\\\\"
  else if c = '"' then "\\\""
  else if c = '\n' then "\\n"
  else if c = '\r' then "\\r"
  else if c = '\t' then "\\t"
  else if c = Char.ofNat 8 then "\\b"
  else if c = Char.ofNat 12 then "\\f"
  else if 32 ≤ c.toNat && c.toNat ≤ 126 then String.singleton c
  else if c.toNat ≤ 65535 then "\\u" ++ hex4 c.toNat
  else
    "\\u" ++ hex4 (55296 + (c.toNat - 65536) / 1024) ++
      "\\u" ++ hex4 (56320 + (c.toNat - 65536) % 1024)

/-- JSON string literal for `s`, as produced by Python `json.dumps`. -/
def jsonString (s : String) : String :=
  "\"" ++ String.join (s.data.map jsonEscapeChar) ++ "\""

/-- Python `json.dumps` on a list of strings (default separators:
a comma and a space between the items). -/
def jsonDumps (l : List String) : String :=
  "[" ++ String.intercalate ", " (l.map jsonString) ++ "]"

/-- Plugin settings relevant to `on_postprocessor_task_results`
(`plugin.py`, lines 41-49, read at lines 336-347). -/
structure Settings where
  only_on_task_processing_success : Bool
  run_for_each_destination_file : Bool
  input_type : String
  script : String
  cmd : String
  args : String
  script_dependencies : String
deriving DecidableEq, Repr

/-- Fields of the `data` payload consumed by the runner (`plugin.py`,
lines 321-327 and 334-392).  `destination_files` is `none` when the key is
absent from the payload.  `source_exists` and `source_size` are the
filesystem oracle for `os.path.exists(abspath)` / `os.path.getsize(abspath)`
on the source file (line 354). -/
structure TaskData where
  final_cache_path : String
  library_id : Nat
  task_processing_success : Bool
  file_move_processes_success : Bool
  destination_files : Option (List String)
  source_abspath : String
  source_exists : Bool
  source_size : Nat
deriving DecidableEq, Repr

/-- Observable side effects of one hook invocation: the `(cmd, args)` pairs
passed to `exec_subprocess`, the full-command strings actually spawned, and
the scratch files written (the latter only arise inside `build_script`,
which is abstracted by `Env`). -/
structure Trace where
  execCalls : List (String × String)
  spawns : List String
  writes : List String
deriving DecidableEq, Repr

/-- Trace of an invocation that did nothing. -/
def Trace.empty : Trace := ⟨[], [], []⟩

/-- External effects the orchestrator depends on: `run` gives the exit code
of a spawned shell command, and `buildScript` abstracts
`build_script(settings, data)` (`plugin.py`, lines 276-314), which reads
only the settings and the payload's `final_cache_path` and `library_id`; it
yields the side effects it performed together with the composed
`"<executable> <script path>"` command, or the error it raised. -/
structure Env where
  run : String → Int
  buildScript : Settings → String → Nat → Trace × Except String String

/-- Argument normalization (`plugin.py`, line 350):
`args.replace('\n', ' ').replace('\r', '')`. -/
def normalizeArgs (args : String) : String :=
  pyReplace (pyReplace args "\n" " ") "\r" ""

/-- Substitution loop over the variable map (`plugin.py`, lines 370-375 and
384-389): for each entry in order, take its value, fall back to the key
itself when the value is `None`, and replace every occurrence of the key. -/
def substituteAll (vm : List (String × Option String)) (s : String) : String :=
  vm.foldl (fun acc kv => pyReplace acc kv.1 (kv.2.getD kv.1)) s

/-- Variable map built before the fan-out decision (`plugin.py`,
lines 353-360).  Every value is passed through Python `str(...)`, so a
missing source file stores the string `None` (not a null value). -/
def baseVariableMap (data : TaskData) : List (String × Option String) :=
  [("{library_id}", some (toString data.library_id)),
   ("{final_cache_path}", some data.final_cache_path),
   ("{source_file_path}", some data.source_abspath),
   ("{source_file_size}",
     some (pyStrOptNat (if data.source_exists then some data.source_size else none)))]

/-- Variable map used on one iteration of the per-file loop (`plugin.py`,
line 367): the base map with `{output_file_path}` bound to this file. -/
def perFileVm (vm : List (String × Option String)) (f : String) :
    List (String × Option String) :=
  vm ++ [("{output_file_path}", some f)]

/-- Variable map of the batch branch (`plugin.py`, line 381):
`{output_files}` is bound to the JSON dump of `destination_files`, with the
empty list as the default for an absent key. -/
def batchVm (data : TaskData) : List (String × Option String) :=
  baseVariableMap data ++
    [("{output_files}", some (jsonDumps (data.destination_files.getD [])))]

/-- Per-file fan-out loop (`plugin.py`, lines 364-378).  The Python loop
reassigns `cmd` and `args` with their substituted values on every
iteration, so the mutated strings are threaded through the recursion; the
returned triple is the final trace, the final `cmd` and `args` values, and
the result (an error aborts the remaining iterations). -/
def runPerFile (run : String → Int) (vm : List (String × Option String)) :
    Trace → String → String → List String → Trace × String × String × Except String Unit
  | t, cmd, args, [] => (t, cmd, args, Except.ok ())
  | t, cmd, args, f :: rest =>
    let cmd2 := substituteAll (perFileVm vm f) cmd
    let args2 := substituteAll (perFileVm vm f) args
    let r := exec_subprocess run cmd2 args2
    let t2 : Trace := ⟨t.execCalls ++ [(cmd2, args2)], t.spawns ++ r.1, t.writes⟩
    match r.2 with
    | Except.error e => (t2, cmd2, args2, Except.error e)
    | Except.ok _ => runPerFile run vm t2 cmd2 args2 rest

/-- Batch branch (`plugin.py`, lines 379-392): substitute once and execute
once. -/
def runBatch (run : String → Int) (vm : List (String × Option String)) (t : Trace)
    (cmd args : String) : Trace × Except String Unit :=
  let cmd2 := substituteAll vm cmd
  let args2 := substituteAll vm args
  let r := exec_subprocess run cmd2 args2
  (⟨t.execCalls ++ [(cmd2, args2)], t.spawns ++ r.1, t.writes⟩,
    r.2.map fun _ => ())

/-- Command resolution (`plugin.py`, lines 342-345): the configured `cmd`
setting in command mode, otherwise the command composed by `build_script`. -/
def resolveCommand (env : Env) (settings : Settings) (data : TaskData) :
    Trace × Except String String :=
  if settings.input_type ≠ "command" then
    env.buildScript settings data.final_cache_path data.library_id
  else
    (Trace.empty, Except.ok settings.cmd)

/-- Embedding of the runner `on_postprocessor_task_results(data)`
(`plugin.py`, lines 317-392): success gate, command resolution, argument
normalization, variable map, then the per-file or batch fan-out.  Iterating
a `destination_files` key that is absent from the payload raises a Python
`TypeError`; that is modelled as an error result. -/
def on_postprocessor_task_results (env : Env) (settings : Settings) (data : TaskData) :
    Trace × Except String Unit :=
  if settings.only_on_task_processing_success && !data.task_processing_success then
    (Trace.empty, Except.ok ())
  else
    match resolveCommand env settings data with
    | (t0, Except.error e) => (t0, Except.error e)
    | (t0, Except.ok cmd) =>
      let args := normalizeArgs settings.args
      if settings.run_for_each_destination_file then
        match data.destination_files with
        | none => (t0, Except.error "TypeError: NoneType object is not iterable")
        | some files =>
          let r := runPerFile env.run (baseVariableMap data) t0 cmd args files
          (r.1, r.2.2.2)
      else
        runBatch env.run (batchVm data) t0 cmd args

/-! ### Properties of the `str.replace` embedding -/

/-- Decomposition of a list along a matched pattern at its head. -/
theorem eq_append_drop_of_isPrefixOf :
    ∀ {pat l : List Char}, pat.isPrefixOf l = true → l = pat ++ l.drop pat.length := by
  intro pat
  induction pat with
  | nil => intro l _; simp
  | cons p ps ih =>
    intro l h
    cases l with
    | nil => simp [List.isPrefixOf] at h
    | cons a s =>
      simp only [List.isPrefixOf, Bool.and_eq_true, beq_iff_eq] at h
      obtain ⟨h1, h2⟩ := h
      subst h1
      have hs := ih h2
      simpa [List.length_cons] using congrArg (fun u => p :: u) hs

/-- Replacing a pattern by itself is the identity. -/
theorem replaceListFuel_self (pat : List Char) :
    ∀ fuel l, l.length ≤ fuel → replaceListFuel pat pat fuel l = l := by
  intro fuel
  induction fuel with
  | zero =>
    intro l hl
    match l with
    | [] => rfl
    | c :: s => simp at hl
  | succ n ih =>
    intro l hl
    match l with
    | [] => rfl
    | c :: s =>
      simp only [replaceListFuel]
      by_cases hcond : (!pat.isEmpty && pat.isPrefixOf (c :: s)) = true
      · rw [if_pos hcond]
        simp only [Bool.and_eq_true] at hcond
        obtain ⟨hne, hpre⟩ := hcond
        have hplen : 1 ≤ pat.length := by
          cases pat with
          | nil => simp [List.isEmpty] at hne
          | cons _ _ => simp
        have hdec := eq_append_drop_of_isPrefixOf hpre
        have hfuel : ((c :: s).drop pat.length).length ≤ n := by
          rw [List.length_drop]
          simp only [List.length_cons]
          have hsl : s.length + 1 ≤ n + 1 := by simpa using hl
          omega
        rw [ih _ hfuel, ← hdec]
      · rw [if_neg hcond]
        have hs : s.length ≤ n := by simpa using hl
        rw [ih s hs]

/-- Replacing a single character by a single character is a pointwise map. -/
theorem replaceListFuel_singleton_map (c r : Char) :
    ∀ fuel l, l.length ≤ fuel →
      replaceListFuel [c] [r] fuel l = l.map fun x => if x = c then r else x := by
  intro fuel
  induction fuel with
  | zero =>
    intro l hl
    match l with
    | [] => rfl
    | a :: s => simp at hl
  | succ n ih =>
    intro l hl
    match l with
    | [] => rfl
    | a :: s =>
      have hs : s.length ≤ n := by simpa using hl
      simp only [replaceListFuel, List.map]
      by_cases hac : a = c
      · subst hac
        rw [if_pos (by simp [List.isPrefixOf])]
        simp only [List.length_cons, List.length_nil, Nat.zero_add]
        rw [show (a :: s).drop 1 = s from rfl, ih s hs]
        simp
      · rw [if_neg (by simp [List.isPrefixOf, Ne.symm hac])]
        rw [ih s hs]
        simp [hac]

/-- Replacing a single character by the empty string deletes it. -/
theorem replaceListFuel_singleton_del (c : Char) :
    ∀ fuel l, l.length ≤ fuel →
      replaceListFuel [c] [] fuel l = l.filterMap fun x => if x = c then none else some x := by
  intro fuel
  induction fuel with
  | zero =>
    intro l hl
    match l with
    | [] => rfl
    | a :: s => simp at hl
  | succ n ih =>
    intro l hl
    match l with
    | [] => rfl
    | a :: s =>
      have hs : s.length ≤ n := by simpa using hl
      simp only [replaceListFuel, List.filterMap]
      by_cases hac : a = c
      · subst hac
        rw [if_pos (by simp [List.isPrefixOf])]
        simp only [List.length_cons, List.length_nil, Nat.zero_add]
        rw [show (a :: s).drop 1 = s from rfl, ih s hs]
        simp
      · rw [if_neg (by simp [List.isPrefixOf, Ne.symm hac])]
        rw [ih s hs]
        simp [hac]

/-- Replacement is the identity when the pattern occurs nowhere in the
input (the condition is phrased as a decidable scan over all suffixes). -/
theorem replaceListFuel_not_occurs (pat rep : List Char) :
    ∀ fuel l, (l.tails.all fun suf => !(pat.isPrefixOf suf)) = true →
      replaceListFuel pat rep fuel l = l := by
  intro fuel
  induction fuel with
  | zero =>
    intro l _
    match l with
    | [] => rfl
    | a :: s => rfl
  | succ n ih =>
    intro l h
    match l with
    | [] => rfl
    | a :: s =>
      rw [List.all_eq_true] at h
      have hhead : pat.isPrefixOf (a :: s) = false := by
        have := h (a :: s) (by rw [List.mem_tails])
        simpa using this
      have htail : (s.tails.all fun suf => !(pat.isPrefixOf suf)) = true := by
        rw [List.all_eq_true]
        intro suf hsuf
        exact h suf (by
          rw [List.mem_tails] at hsuf ⊢
          exact hsuf.trans (List.suffix_cons a s))
      simp only [replaceListFuel]
      rw [if_neg (by simp [hhead]), ih s htail]

theorem replaceList_self (pat l : List Char) : replaceList pat pat l = l :=
  replaceListFuel_self pat l.length l le_rfl

theorem replaceList_singleton_map (c r : Char) (l : List Char) :
    replaceList [c] [r] l = l.map fun x => if x = c then r else x :=
  replaceListFuel_singleton_map c r l.length l le_rfl

theorem replaceList_singleton_del (c : Char) (l : List Char) :
    replaceList [c] [] l = l.filterMap fun x => if x = c then none else some x :=
  replaceListFuel_singleton_del c l.length l le_rfl

/-- Python `s.replace(k, k)` returns `s` unchanged. -/
theorem pyReplace_self (s k : String) : pyReplace s k k = s := by
  show String.mk (replaceList k.data k.data s.data) = s
  rw [replaceList_self]

/-- Python `s.replace(pat, rep)` returns `s` unchanged when `pat` occurs
nowhere in `s`. -/
theorem pyReplace_not_occurs (s pat rep : String)
    (h : (s.data.tails.all fun suf => !(pat.data.isPrefixOf suf)) = true) :
    pyReplace s pat rep = s := by
  show String.mk (replaceList pat.data rep.data s.data) = s
  rw [replaceList, replaceListFuel_not_occurs pat.data rep.data s.data.length s.data h]

/-- The substitution loop is the identity when every map value is null:
each step replaces the key by the key itself. -/
theorem substituteAll_none (vm : List (String × Option String))
    (hvm : ∀ p ∈ vm, p.2 = (none : Option String)) :
    ∀ s : String, substituteAll vm s = s := by
  induction vm with
  | nil => intro s; rfl
  | cons p rest ih =>
    intro s
    have hp : p.2 = none := hvm p (List.mem_cons_self p rest)
    show substituteAll rest (pyReplace s p.1 (p.2.getD p.1)) = s
    rw [hp, Option.getD_none, pyReplace_self]
    exact ih (fun q hq => hvm q (List.mem_cons_of_mem p hq)) s

/-! ### Claims about the subprocess executor -/

/-- C5: for every non-blank composed command, `exec_subprocess` returns
boolean true exactly when the child process exits with code 0, and any
non-zero exit code raises a fatal error whose message contains the full
composed command string. -/
theorem C5_exit_code_classification (run : String → Int) (cmd args : String)
    (h : ((cmd ++ " " ++ args).data.any fun c => !(isPySpace c)) = true) :
    ((exec_subprocess run cmd args).2 = Except.ok (some true) ↔
        run (cmd ++ " " ++ args) = 0) ∧
      (run (cmd ++ " " ++ args) ≠ 0 →
        (exec_subprocess run cmd args).2 =
            Except.error
              ("Failed to execute command: " ++ squote ++ (cmd ++ " " ++ args) ++ squote) ∧
          ∃ p q,
            "Failed to execute command: " ++ squote ++ (cmd ++ " " ++ args) ++ squote =
              p ++ (cmd ++ " " ++ args) ++ q) := by
  simp only [exec_subprocess]
  rw [h]
  simp only [if_true]
  constructor
  · constructor
    · intro hok
      by_cases hr : run (cmd ++ " " ++ args) = 0
      · exact hr
      · rw [if_neg hr] at hok
        simp at hok
    · intro hr
      rw [if_pos hr]
  · intro hr
    rw [if_neg hr]
    exact ⟨rfl, "Failed to execute command: " ++ squote, squote, rfl⟩

/-- Witness for C5 at a concrete command whose exit code is 2. -/
theorem C5_exit_code_classification_witness :
    ((exec_subprocess (fun _ => (2 : Int)) "false" "").2 = Except.ok (some true) ↔
        (fun _ => (2 : Int)) ("false" ++ " " ++ "") = 0) ∧
      ((fun _ => (2 : Int)) ("false" ++ " " ++ "") ≠ 0 →
        (exec_subprocess (fun _ => (2 : Int)) "false" "").2 =
            Except.error
              ("Failed to execute command: " ++ squote ++ ("false" ++ " " ++ "") ++ squote) ∧
          ∃ p q,
            "Failed to execute command: " ++ squote ++ ("false" ++ " " ++ "") ++ squote =
              p ++ ("false" ++ " " ++ "") ++ q) :=
  C5_exit_code_classification (fun _ => (2 : Int)) "false" "" (by decide)

/-- C8: when the space-joined concatenation of `cmd` and `args` is
whitespace-only, `exec_subprocess` spawns nothing and raises nothing: it is
a silent no-op (the Python function implicitly returns `None`). -/
theorem C8_blank_command_noop (run : String → Int) (cmd args : String)
    (h : ∀ c ∈ (cmd ++ " " ++ args).data, isPySpace c = true) :
    exec_subprocess run cmd args = ([], Except.ok none) := by
  have hg : ((cmd ++ " " ++ args).data.any fun c => !(isPySpace c)) = false := by
    rw [List.any_eq_false]
    intro c hc
    simp [h c hc]
  simp only [exec_subprocess]
  rw [hg]
  simp

/-- Witness for C8 with an empty command and whitespace-only args. -/
theorem C8_blank_command_noop_witness :
    exec_subprocess (fun _ => (0 : Int)) "" "  " = ([], Except.ok none) :=
  C8_blank_command_noop (fun _ => (0 : Int)) "" "  " (by decide)

/-- C10: the emptiness guard applies to the space-joined concatenation, not
to `cmd` alone: with an empty `cmd` and a non-blank `args`, a process is
still spawned, and its command line is the join of the empty command and
the args string. -/
theorem C10_empty_cmd_still_spawns (run : String → Int) (args : String)
    (h : (args.data.any fun c => !(isPySpace c)) = true) :
    (exec_subprocess run "" args).1 = [" " ++ args] := by
  have hg : ((("" : String) ++ " " ++ args).data.any fun c => !(isPySpace c)) = true := h
  simp only [exec_subprocess]
  rw [hg]
  simp only [if_true]
  split <;> rfl

/-- Witness for C10: empty command, args `ls`. -/
theorem C10_empty_cmd_still_spawns_witness :
    (exec_subprocess (fun _ => (7 : Int)) "" "ls").1 = [" " ++ "ls"] :=
  C10_empty_cmd_still_spawns (fun _ => (7 : Int)) "ls" (by decide)

/-! ### Claims about argument normalization and variable substitution -/

/-- C3: the normalization applied to the args string before substitution
replaces every newline with a single space and strips every carriage
return, character by character; consequently the normalized args string
contains no newline and no carriage return. -/
theorem C3_argument_normalization (args : String) :
    (normalizeArgs args).data =
        (args.data.filterMap fun c =>
          if c = '\n' then some ' ' else if c = '\r' then none else some c) ∧
      '\n' ∉ (normalizeArgs args).data ∧ '\r' ∉ (normalizeArgs args).data := by
  have hfun :
      ((fun x => if x = '\r' then none else some x) ∘
          fun x : Char => if x = '\n' then ' ' else x) =
        fun c => if c = '\n' then some ' ' else if c = '\r' then none else some c := by
    funext x
    by_cases h1 : x = '\n'
    · subst h1; simp
    · by_cases h2 : x = '\r'
      · subst h2; simp
      · simp [h1, h2]
  have hdata : (normalizeArgs args).data =
      (args.data.filterMap fun c =>
        if c = '\n' then some ' ' else if c = '\r' then none else some c) := by
    show replaceList ['\r'] [] (replaceList ['\n'] [' '] args.data) = _
    rw [replaceList_singleton_map, replaceList_singleton_del, List.filterMap_map, hfun]
  refine ⟨hdata, ?_, ?_⟩
  · rw [hdata]
    intro hmem
    rcases List.mem_filterMap.mp hmem with ⟨a, _, ha⟩
    split at ha
    · simp at ha
    · split at ha
      · simp at ha
      · simp_all
  · rw [hdata]
    intro hmem
    rcases List.mem_filterMap.mp hmem with ⟨a, _, ha⟩
    split at ha
    · simp at ha
    · split at ha
      · simp at ha
      · simp_all

/-- C2 counterexample: at a payload whose source file does not exist, the
runner does not leave `\x7bsource_file_size\x7d` as literal token text: the
executed command is `stat None`, because the variable map stores the Python
stringification `str(None)`. -/
theorem C2_source_size_token_replaced :
    (on_postprocessor_task_results
          ⟨fun _ => 0, fun _ _ _ => (Trace.empty, Except.ok "")⟩
          ⟨false, false, "command", "", "stat {source_file_size}", "", ""⟩
          ⟨"/cache/f.mkv", 1, true, true, some [], "/src.mkv", false, 0⟩).1.execCalls =
        [("stat None", "")] ∧
      ("stat None" : String) ≠ "stat {source_file_size}" :=
  ⟨rfl, by decide⟩

/-- C2 (amended): the substitution loop does leave the literal token
unchanged for any map entry whose value is null, but the runner stringifies
every value before insertion, so a missing source file binds
`\x7bsource_file_size\x7d` to the text `None`, which then replaces the
token. -/
theorem C2_null_value_substitution (vm : List (String × Option String)) (s : String)
    (hvm : ∀ p ∈ vm, p.2 = (none : Option String)) (data : TaskData)
    (hex : data.source_exists = false) :
    substituteAll vm s = s ∧
      ("{source_file_size}", some "None") ∈ baseVariableMap data ∧
      substituteAll (baseVariableMap data) "{source_file_size}" = "None" := by
  have hmap : baseVariableMap data =
      [("{library_id}", some (toString data.library_id)),
       ("{final_cache_path}", some data.final_cache_path),
       ("{source_file_path}", some data.source_abspath),
       ("{source_file_size}", some "None")] := by
    simp [baseVariableMap, hex, pyStrOptNat]
  refine ⟨substituteAll_none vm hvm s, ?_, ?_⟩
  · rw [hmap]
    simp
  · rw [hmap]
    show pyReplace (pyReplace (pyReplace (pyReplace "{source_file_size}"
        "{library_id}" (toString data.library_id))
        "{final_cache_path}" data.final_cache_path)
        "{source_file_path}" data.source_abspath)
        "{source_file_size}" "None" = "None"
    rw [pyReplace_not_occurs "{source_file_size}" "{library_id}" _ (by decide)]
    rw [pyReplace_not_occurs "{source_file_size}" "{final_cache_path}" _ (by decide)]
    rw [pyReplace_not_occurs "{source_file_size}" "{source_file_path}" _ (by decide)]
    rfl

/-- Witness for the amended C2: a concrete null-valued map entry and a
concrete payload with a missing source file. -/
theorem C2_null_value_substitution_witness :
    substituteAll [("{missing}", (none : Option String))] "run {missing}" = "run {missing}" ∧
      ("{source_file_size}", some "None") ∈
        baseVariableMap ⟨"/c", 7, true, true, some [], "/s", false, 0⟩ ∧
      substituteAll (baseVariableMap ⟨"/c", 7, true, true, some [], "/s", false, 0⟩)
          "{source_file_size}" = "None" :=
  C2_null_value_substitution [("{missing}", none)] "run {missing}" (by simp)
    ⟨"/c", 7, true, true, some [], "/s", false, 0⟩ rfl

/-! ### Claims about the per-file fan-out loop -/

/-- Each successful iteration of the per-file loop records exactly one
executor call. -/
theorem runPerFile_ok_execCalls_length (run : String → Int)
    (vm : List (String × Option String)) :
    ∀ (fs : List String) (t : Trace) (cmd args : String) (t1 : Trace) (c1 a1 : String),
      runPerFile run vm t cmd args fs = (t1, c1, a1, Except.ok ()) →
      t1.execCalls.length = t.execCalls.length + fs.length := by
  intro fs
  induction fs with
  | nil =>
    intro t cmd args t1 c1 a1 h
    simp only [runPerFile, Prod.mk.injEq] at h
    obtain ⟨h1, -, -, -⟩ := h
    rw [← h1]
    simp
  | cons f rest ih =>
    intro t cmd args t1 c1 a1 h
    simp only [runPerFile] at h
    cases hr : (exec_subprocess run (substituteAll (perFileVm vm f) cmd)
        (substituteAll (perFileVm vm f) args)).2 with
    | error e =>
      rw [hr] at h
      simp at h
    | ok v =>
      rw [hr] at h
      have hlen := ih _ _ _ _ _ _ h
      simp only [List.length_append, List.length_cons] at hlen ⊢
      simp at hlen
      omega

/-- C6: fail-fast fan-out.  If the loop processes a prefix `fs1`
successfully (reaching the mutated command/args state `c1`, `a1` and trace
`t1`) and the execution for the next file `f` raises, then the whole run
over `fs1 ++ f :: fs2` stops with that error: its trace is the prefix trace
extended by the single failing call — nothing is executed for the files of
`fs2` and the effects of the already-run iterations are left untouched —
and the total number of executor calls is the number of processed files
plus one. -/
theorem C6_fail_fast (run : String → Int) (vm : List (String × Option String))
    (t t1 : Trace) (cmd args c1 a1 : String) (fs1 fs2 : List String) (f e : String)
    (hpre : runPerFile run vm t cmd args fs1 = (t1, c1, a1, Except.ok ()))
    (hfail : (exec_subprocess run (substituteAll (perFileVm vm f) c1)
        (substituteAll (perFileVm vm f) a1)).2 = Except.error e) :
    runPerFile run vm t cmd args (fs1 ++ f :: fs2) =
        (⟨t1.execCalls ++
            [(substituteAll (perFileVm vm f) c1, substituteAll (perFileVm vm f) a1)],
          t1.spawns ++ (exec_subprocess run (substituteAll (perFileVm vm f) c1)
              (substituteAll (perFileVm vm f) a1)).1,
          t1.writes⟩,
          substituteAll (perFileVm vm f) c1, substituteAll (perFileVm vm f) a1,
          Except.error e) ∧
      (runPerFile run vm t cmd args (fs1 ++ f :: fs2)).1.execCalls.length =
        t.execCalls.length + (fs1.length + 1) := by
  have main : runPerFile run vm t cmd args (fs1 ++ f :: fs2) =
      (⟨t1.execCalls ++
          [(substituteAll (perFileVm vm f) c1, substituteAll (perFileVm vm f) a1)],
        t1.spawns ++ (exec_subprocess run (substituteAll (perFileVm vm f) c1)
            (substituteAll (perFileVm vm f) a1)).1,
        t1.writes⟩,
        substituteAll (perFileVm vm f) c1, substituteAll (perFileVm vm f) a1,
        Except.error e) := by
    induction fs1 generalizing t cmd args with
    | nil =>
      simp only [runPerFile, Prod.mk.injEq] at hpre
      obtain ⟨h1, h2, h3, -⟩ := hpre
      subst h1; subst h2; subst h3
      simp only [List.nil_append, runPerFile]
      rw [hfail]
    | cons g gs ih =>
      simp only [runPerFile] at hpre
      simp only [List.cons_append, runPerFile]
      cases hr : (exec_subprocess run (substituteAll (perFileVm vm g) cmd)
          (substituteAll (perFileVm vm g) args)).2 with
      | error e2 =>
        rw [hr] at hpre
        simp at hpre
      | ok v =>
        rw [hr] at hpre
        exact ih _ _ _ hpre
  refine ⟨main, ?_⟩
  rw [main]
  have hlen := runPerFile_ok_execCalls_length run vm fs1 t cmd args t1 c1 a1 hpre
  simp only [List.length_append, List.length_cons, List.length_nil]
  omega

/-- Witness for C6: the very first file's command exits non-zero, so
exactly one executor call is recorded and the remaining file is skipped. -/
theorem C6_fail_fast_witness :
    runPerFile (fun _ => (2 : Int)) [] Trace.empty "run {output_file_path}" ""
          ([] ++ "f1" :: ["f2"]) =
        (⟨Trace.empty.execCalls ++
            [(substituteAll (perFileVm [] "f1") "run {output_file_path}",
              substituteAll (perFileVm [] "f1") "")],
          Trace.empty.spawns ++ (exec_subprocess (fun _ => (2 : Int))
              (substituteAll (perFileVm [] "f1") "run {output_file_path}")
              (substituteAll (perFileVm [] "f1") "")).1,
          Trace.empty.writes⟩,
          substituteAll (perFileVm [] "f1") "run {output_file_path}",
          substituteAll (perFileVm [] "f1") "",
          Except.error ("Failed to execute command: " ++ squote ++ "run f1 " ++ squote)) ∧
      (runPerFile (fun _ => (2 : Int)) [] Trace.empty "run {output_file_path}" ""
            ([] ++ "f1" :: ["f2"])).1.execCalls.length =
        Trace.empty.execCalls.length + (List.length ([] : List String) + 1) :=
  C6_fail_fast (fun _ => (2 : Int)) [] Trace.empty Trace.empty
    "run {output_file_path}" "" "run {output_file_path}" "" [] ["f2"] "f1"
    ("Failed to execute command: " ++ squote ++ "run f1 " ++ squote) rfl rfl

/-! ### Claims about the orchestrator -/

/-- C1 divergence: in per-file mode the loop reassigns `cmd` and `args`
with their substituted values, so the first iteration consumes the
`\x7boutput_file_path\x7d` placeholder and every later iteration reuses the
first file's path.  At a payload with two destination files the executor is
invoked twice, but both invocations carry the first file: the second call
is not the second file's command, contradicting the per-file binding the
source's own comments describe. -/
theorem C1_per_file_placeholder_goes_stale :
    (on_postprocessor_task_results
          ⟨fun _ => 0, fun _ _ _ => (Trace.empty, Except.ok "")⟩
          ⟨false, true, "command", "", "echo {output_file_path}", "", ""⟩
          ⟨"/cache/f.mkv", 1, true, true, some ["/a.mkv", "/b.mkv"], "/src.mkv", false, 0⟩) =
        (⟨[("echo /a.mkv", ""), ("echo /a.mkv", "")],
          ["echo /a.mkv ", "echo /a.mkv "], []⟩, Except.ok ()) ∧
      (on_postprocessor_task_results
          ⟨fun _ => 0, fun _ _ _ => (Trace.empty, Except.ok "")⟩
          ⟨false, true, "command", "", "echo {output_file_path}", "", ""⟩
          ⟨"/cache/f.mkv", 1, true, true, some ["/a.mkv", "/b.mkv"], "/src.mkv", false,
            0⟩).1.execCalls[1]? ≠ some ("echo /b.mkv", "") :=
  ⟨rfl, by decide⟩

/-- C4: with `only_on_task_processing_success` set and a failed task, the
runner returns immediately: the trace is empty (no executor call, no spawned
process, no scratch write) and no error is raised. -/
theorem C4_success_gate (env : Env) (settings : Settings) (data : TaskData)
    (h1 : settings.only_on_task_processing_success = true)
    (h2 : data.task_processing_success = false) :
    on_postprocessor_task_results env settings data = (Trace.empty, Except.ok ()) := by
  simp [on_postprocessor_task_results, h1, h2]

/-- Witness for C4: the environment would spawn a process and write a
scratch file if consulted, yet the gated invocation produces the empty
trace. -/
theorem C4_success_gate_witness :
    on_postprocessor_task_results
        ⟨fun _ => 1, fun _ _ _ => (⟨[("x", "y")], ["x y"], ["/tmp/script.sh"]⟩, Except.ok "x")⟩
        ⟨true, true, "bash", "body", "", "{output_files}", ""⟩
        ⟨"/c", 2, false, true, some ["/a"], "/s", true, 10⟩ =
      (Trace.empty, Except.ok ()) :=
  C4_success_gate _ _ _ rfl rfl

/-- C7: in batch mode the runner calls the executor exactly once, whatever
the destination list is (present, empty or absent): the trace extends the
command-resolution trace by a single call, whose command and args are the
configured strings with the batch variable map substituted.  That map binds
`\x7boutput_files\x7d` to the JSON dump of the full destination list, and
an absent list dumps as the empty JSON array. -/
theorem C7_batch_single_execution (env : Env) (settings : Settings) (data : TaskData)
    (t0 : Trace) (c : String)
    (hmode : settings.run_for_each_destination_file = false)
    (hgate : (settings.only_on_task_processing_success && !data.task_processing_success) = false)
    (hres : resolveCommand env settings data = (t0, Except.ok c)) :
    (on_postprocessor_task_results env settings data).1.execCalls =
        t0.execCalls ++
          [(substituteAll (batchVm data) c,
            substituteAll (batchVm data) (normalizeArgs settings.args))] ∧
      ("{output_files}", some (jsonDumps (data.destination_files.getD []))) ∈ batchVm data ∧
      (data.destination_files = none → jsonDumps (data.destination_files.getD []) = "[]") := by
  refine ⟨?_, ?_, ?_⟩
  · simp only [on_postprocessor_task_results, hgate, hres, hmode]
    simp [runBatch]
  · simp [batchVm]
  · intro h
    rw [h]
    rfl

/-- Witness for C7 at a payload with no `destination_files` key: the one
executed command is the configured command with `\x7boutput_files\x7d`
replaced by the empty JSON array. -/
theorem C7_batch_single_execution_witness :
    (on_postprocessor_task_results
          ⟨fun _ => 0, fun _ _ _ => (Trace.empty, Except.ok "")⟩
          ⟨false, false, "command", "", "c {output_files}", "", ""⟩
          ⟨"/c", 3, true, true, none, "/s", true, 1024⟩).1.execCalls =
        Trace.empty.execCalls ++
          [(substituteAll (batchVm ⟨"/c", 3, true, true, none, "/s", true, 1024⟩)
              "c {output_files}",
            substituteAll (batchVm ⟨"/c", 3, true, true, none, "/s", true, 1024⟩)
              (normalizeArgs ""))] ∧
      ("{output_files}",
          some (jsonDumps ((none : Option (List String)).getD []))) ∈
        batchVm ⟨"/c", 3, true, true, none, "/s", true, 1024⟩ ∧
      ((none : Option (List String)) = none →
        jsonDumps ((none : Option (List String)).getD []) = "[]") :=
  C7_batch_single_execution _ _ _ Trace.empty "c {output_files}" rfl rfl rfl

/-- C9: the runner never consults `file_move_processes_success`: two
payloads that differ only in that field produce identical behaviour —
the same gate decision, trace and result. -/
theorem C9_file_move_flag_noninterference (env : Env) (settings : Settings)
    (data : TaskData) (b : Bool) :
    on_postprocessor_task_results env settings
        ⟨data.final_cache_path, data.library_id, data.task_processing_success, b,
          data.destination_files, data.source_abspath, data.source_exists,
          data.source_size⟩ =
      on_postprocessor_task_results env settings data := by
  cases data
  rfl

end PostprocessorScript
